import Mathlib

/-!
Verification development for the mapproxy tile cache, grid, manager and
layer subsystem, together with its configuration loader.

The configuration loader (`mapproxy/core/conf_loader.py`) is embedded
directly from its source.  The cache/grid/manager/layer module
(`mapproxy/core/cache.py`, `grid.py`, `srs.py`) is not part of the source
tree; those operations are modelled from the specification (and the
behavior pinned down by the repository's unit test suite), as marked in
each doc comment.
-/

set_option autoImplicit false

namespace MapProxy

/-- Tile coordinate `(x, y, level)`. -/
abbrev Coord := Nat × Nat × Nat

/-- Pixel size `(width, height)`. -/
abbrev Size := Nat × Nat

/-- Bounding box in map units (rationals stand in for the float math). -/
structure BBoxQ where
  x0 : ℚ
  y0 : ℚ
  x1 : ℚ
  y1 : ℚ
  deriving DecidableEq

/-- Modelled from the spec: `MapQuery` is the immutable request
descriptor `(bbox, size, srs)`; the SRS is identified by its numeric
EPSG code (equality of SRS values is by normalized code). -/
structure MapQuery where
  bbox : BBoxQ
  size : Size
  srs : Nat
  deriving DecidableEq

/-- Modelled from the spec: the global geodetic `TileGrid`
(`TileGrid(SRS(4326), bbox=[-180,-90,180,90])`, tile size 256x256,
`grid.py` is not in the source tree).  Number of tile columns at a
level: level 0 has one tile, each level doubles. -/
def gridWidthTiles (level : Nat) : Nat := 2 ^ level

/-- Modelled from the spec: number of tile rows of the global geodetic
grid at a level (half the columns, at least one row). -/
def gridHeightTiles (level : Nat) : Nat := 2 ^ (level - 1)

/-- Modelled from the spec: width in degrees of one 256px tile of the
global geodetic grid at a level. -/
def tileWidthDeg (level : Nat) : ℚ := 360 / 2 ^ level

/-- Modelled from the spec: height in degrees of one 256px tile of the
global geodetic grid at a level. -/
def tileHeightDeg (level : Nat) : ℚ := 180 / 2 ^ (level - 1)

/-- Modelled from the spec: resolution (degrees per pixel) of the global
geodetic grid at a level, for 256x256 pixel tiles. -/
def resolutionOfLevel (level : Nat) : ℚ := tileWidthDeg level / 256

/-- Modelled from the spec: bbox of a single tile of the global geodetic
grid, with the south-west origin convention. -/
def tileBBox (c : Coord) : BBoxQ :=
  let x := c.1; let y := c.2.1; let l := c.2.2
  { x0 := -180 + x * tileWidthDeg l
    y0 := -90 + y * tileHeightDeg l
    x1 := -180 + (x + 1) * tileWidthDeg l
    y1 := -90 + (y + 1) * tileHeightDeg l }

/-- Modelled from the spec: anchor (lower-left member coordinate) of the
meta-tile covering a tile coordinate, for a configured `meta_size`.  Two
coordinates in the same meta-tile have the same anchor, which is what
the per-meta-tile lock is keyed by. -/
def metaAnchor (metaSize : Size) (c : Coord) : Coord :=
  (c.1 - c.1 % metaSize.1, c.2.1 - c.2.1 % metaSize.2, c.2.2)

/-- Meta-tile descriptor: member coordinates, combined bbox and pixel
size. -/
structure MetaTileM where
  members : List Coord
  bbox : BBoxQ
  size : Size

/-- Modelled from the spec: the meta-tile at an anchor coordinate.  The
member block is `meta_size` tiles wide and high, clipped at the grid
boundary (at level 1 of the geodetic grid a 2x2 meta-tile has only one
row of tiles and a 512x256 pixel size).  The bbox is the union of the
member tile bboxes enlarged by `meta_buffer` pixels (at the level's
resolution) on every side; the pixel size grows accordingly. -/
def metaTileAt (metaSize : Size) (metaBuffer : Nat) (anchor : Coord) : MetaTileM :=
  let ax := anchor.1; let ay := anchor.2.1; let l := anchor.2.2
  let nx := min metaSize.1 (gridWidthTiles l - ax)
  let ny := min metaSize.2 (gridHeightTiles l - ay)
  let res := resolutionOfLevel l
  { members :=
      (List.range nx).flatMap (fun i => (List.range ny).map (fun j => (ax + i, ay + j, l)))
    bbox :=
      { x0 := -180 + ax * tileWidthDeg l - metaBuffer * res
        y0 := -90 + ay * tileHeightDeg l - metaBuffer * res
        x1 := -180 + (ax + nx) * tileWidthDeg l + metaBuffer * res
        y1 := -90 + (ay + ny) * tileHeightDeg l + metaBuffer * res }
    size := (nx * 256 + 2 * metaBuffer, ny * 256 + 2 * metaBuffer) }

/-- Observable state threaded through a `TileManager` run: the set of
cached tile coordinates (`MockFileCache.stored_tiles`), every
`FileCache.store` call, every `FileCache.load` call, and every upstream
`Source.get_map` call (`source.requested`). -/
structure ManagerState where
  storedSet : List Coord
  storeCalls : List Coord
  loadCalls : List Coord
  requested : List (BBoxQ × Size × Nat)

/-- Empty starting state: cold cache, no calls made. -/
def initManagerState : ManagerState := ⟨[], [], [], []⟩

/-- First-seen-order deduplication, used to group requested coordinates
by their covering meta-tile. -/
def dedupFirstSeen (l : List Coord) : List Coord :=
  l.foldl (fun acc a => if a ∈ acc then acc else acc ++ [a]) []

/-- Modelled from the spec: the body of `TileManager` step 3-5 for one
meta-tile, executed under that meta-tile's lock (`cache.py` is not in
the source tree).  Under the lock the cache is re-checked for every
member tile; if all members are cached the tiles are answered from the
cache (one `load` per member), otherwise `Source.get_map` is called
exactly once with the meta-tile's bbox and pixel size and every member
tile is split out and stored. -/
def handleMetaTile (metaSize : Size) (metaBuffer : Nat) (st : ManagerState)
    (anchor : Coord) : ManagerState :=
  let mt := metaTileAt metaSize metaBuffer anchor
  if mt.members.all (fun c => c ∈ st.storedSet) then
    { st with loadCalls := st.loadCalls ++ mt.members }
  else
    { st with
      requested := st.requested ++ [(mt.bbox, mt.size, 4326)]
      storeCalls := st.storeCalls ++ mt.members
      storedSet := st.storedSet ++ mt.members.filter (fun c => c ∉ st.storedSet) }

/-- Modelled from the spec: `TileManager._create_tiles` over the global
geodetic grid.  The requested coordinates are grouped into their
covering meta-tiles (step 1) and each meta-tile is handled under its
lock (steps 2-5). -/
def createTiles (metaSize : Size) (metaBuffer : Nat) (coords : List Coord)
    (st : ManagerState) : ManagerState :=
  (dedupFirstSeen (coords.map (metaAnchor metaSize))).foldl
    (handleMetaTile metaSize metaBuffer) st

/-- One requester of the concurrency test: a full `_create_tiles` call
for tiles `(0,0,1)` and `(1,0,1)` of a 2x2-meta manager.  The
per-meta-tile lock serializes the requesters, so a run of `n` concurrent
requesters is equivalent to `n` sequential executions of this step. -/
def lockingStep : ManagerState → ManagerState :=
  createTiles (2, 2) 0 [(0, 0, 1), (1, 0, 1)]

/-- State after `n` lock-serialized requesters have each run
`_create_tiles([Tile((0,0,1)), Tile((1,0,1))])` against an initially
cold cache. -/
def lockingRun (n : Nat) : ManagerState :=
  Nat.iterate lockingStep n initManagerState

/-! FileCache model (claims C3 and C7). -/

/-- Modelled from the spec: a solid tile color, RGB or RGBA depending on
whether the image has an alpha channel (the image capability's
detect-solid-color result). -/
inductive ColorM where
  | rgb (r g b : Nat)
  | rgba (r g b a : Nat)
  deriving DecidableEq

/-- Hex digit character for a value below 16. -/
def hexDigitChar (n : Nat) : Char :=
  if n < 10 then Char.ofNat (48 + n) else Char.ofNat (87 + n)

/-- Two-digit lowercase hex rendering of a byte. -/
def hexByte (n : Nat) : String :=
  String.mk [hexDigitChar (n / 16 % 16), hexDigitChar (n % 16)]

/-- Modelled from the spec: the deterministic hex name of a solid color;
RGB colors give six hex digits, colors of alpha-channel images give
eight (the unit test stores an RGBA image and expects the
`ff0105ff.png` name). -/
def colorHex : ColorM → String
  | .rgb r g b => hexByte r ++ hexByte g ++ hexByte b
  | .rgba r g b a => hexByte r ++ hexByte g ++ hexByte b ++ hexByte a

/-- Modelled from the spec: filename of the canonical single-color file
for a color, `<colorhex>.<ext>`. -/
def singleColorName (c : ColorM) (ext : String) : String :=
  colorHex c ++ "." ++ ext

/-- Storage path: either the normal per-coordinate tile location (the
spec only guarantees a stable bijection between coordinate and path) or
a canonical single-color file named by its color hex. -/
inductive PathM where
  | tileLoc (c : Coord) (ext : String)
  | colorLoc (name : String)
  deriving DecidableEq

/-- Filename component of a path (what `os.path.realpath(...).endswith`
inspects). -/
def pathName : PathM → String
  | .tileLoc c ext => toString c.1 ++ "." ++ ext
  | .colorLoc name => name

/-- A filesystem node: a regular file with contents, or a symbolic link. -/
inductive FsNodeM where
  | file (content : String)
  | link (target : PathM)
  deriving DecidableEq

/-- The cache directory as a finite map from paths to nodes. -/
abbrev Fs := List (PathM × FsNodeM)

/-- Insert or overwrite a path in the filesystem map. -/
def fsInsert : Fs → PathM → FsNodeM → Fs
  | [], p, n => [(p, n)]
  | e :: rest, p, n => if e.1 = p then (p, n) :: rest else e :: fsInsert rest p n

/-- Look a path up in the filesystem map. -/
def fsLookup : Fs → PathM → Option FsNodeM
  | [], _ => none
  | e :: rest, p => if e.1 = p then some e.2 else fsLookup rest p

/-- Resolve one level of symbolic link (`os.path.realpath`). -/
def realpath (fs : Fs) (p : PathM) : PathM :=
  match fsLookup fs p with
  | some (.link t) => t
  | _ => p

/-- Read the bytes behind a path, following a link to its target. -/
def readFile (fs : Fs) (p : PathM) : Option String :=
  match fsLookup fs (realpath fs p) with
  | some (.file s) => some s
  | _ => none

/-- Whether the second string is a suffix of the first
(`str.endswith(suffix)` of the unit tests). -/
def strEndsWith (s t : String) : Bool :=
  t.data.isSuffixOf s.data

/-- Tile image handle: encoded bytes plus the detected solid color, if
the image is one solid color. -/
structure ImageM where
  bytes : String
  solid : Option ColorM
  deriving DecidableEq

/-- Modelled from the spec: a `Tile` with an optional coordinate, an
optional image and the `stored` flag. -/
structure TileM where
  coord : Option Coord
  image : Option ImageM := none
  stored : Bool := false
  deriving DecidableEq

/-- FileCache configuration: file extension and the single-color
deduplication switch (`link_single_color_images`, off by default). -/
structure FileCacheM where
  ext : String
  linkSingleColor : Bool := false

/-- Modelled from the spec: `FileCache.tile_location`, the deterministic
storage path of a coordinate. -/
def FileCacheM.tileLocation (fc : FileCacheM) (c : Coord) : PathM :=
  .tileLoc c fc.ext

/-- Modelled from the spec: `FileCache.store`.  A tile whose `stored`
flag is set is not written at all.  Otherwise the image is persisted at
the tile's location: with single-color deduplication enabled and a solid
color detected, the canonical per-color file is created unless it
already exists and the tile location becomes a link to it; otherwise the
bytes are written at the tile location directly.  The tile's `stored`
flag is set afterwards. -/
def FileCacheM.store (fc : FileCacheM) (fs : Fs) (t : TileM) : Fs × TileM :=
  if t.stored then (fs, t)
  else
    match t.coord, t.image with
    | some c, some img =>
      let loc := fc.tileLocation c
      let fs' :=
        match fc.linkSingleColor, img.solid with
        | true, some col =>
          let canonical := PathM.colorLoc (singleColorName col fc.ext)
          let fs1 := if (fsLookup fs canonical).isSome then fs
                     else fsInsert fs canonical (.file img.bytes)
          fsInsert fs1 loc (.link canonical)
        | _, _ => fsInsert fs loc (.file img.bytes)
      (fs', { t with stored := true })
    | _, _ => (fs, t)

/-- Modelled from the spec: `FileCache.is_cached`; a tile with a null
coordinate is treated as always cached, otherwise the tile location is
checked for existence. -/
def FileCacheM.isCached (fc : FileCacheM) (fs : Fs) (t : TileM) : Bool :=
  match t.coord with
  | none => true
  | some c => (fsLookup fs (fc.tileLocation c)).isSome

/-- Modelled from the spec: `FileCache.load`; populates the tile's image
from storage and reports success, leaves the tile missing on a cache
miss. -/
def FileCacheM.load (fc : FileCacheM) (fs : Fs) (t : TileM) : TileM × Bool :=
  match t.coord with
  | none => (t, true)
  | some c =>
    match readFile fs (fc.tileLocation c) with
    | some content => ({ t with image := some ⟨content, none⟩ }, true)
    | none => (t, false)

/-- A FileCache with png extension and single-color deduplication
enabled, as in `test_single_color_tile_store`. -/
def c3Cache : FileCacheM := ⟨"png", true⟩

/-- A solid opaque RGB image of color ff0105 (no alpha channel). -/
def c3OpaqueImg : ImageM := ⟨"IMGBYTES", some (.rgb 255 1 5)⟩

/-- Cache directory contents after storing the solid ff0105 RGB image at
the two distinct coordinates `(0,0,0)` and `(0,0,1)`. -/
def c3Fs2 : Fs :=
  (c3Cache.store (c3Cache.store [] ⟨some (0, 0, 0), some c3OpaqueImg, false⟩).1
    ⟨some (0, 0, 1), some c3OpaqueImg, false⟩).1

/-- Cache directory contents after storing a solid ff0105 image with a
fully opaque alpha channel (`Image.new('RGBA', ..., '#ff0105')` of the
unit test) at `(0,0,0)`. -/
def c3AlphaFs : Fs :=
  (c3Cache.store [] ⟨some (0, 0, 0), some ⟨"IMGA", some (.rgba 255 1 5 255)⟩, false⟩).1

/-- Cache directory contents after storing a solid image of RGB color
ff0105 with a genuinely non-opaque alpha of 128 (hex 80) at `(0,0,0)`. -/
def c3NonOpaqueFs : Fs :=
  (c3Cache.store [] ⟨some (0, 0, 0), some ⟨"IMGN", some (.rgba 255 1 5 128)⟩, false⟩).1

/-! TiledSource model (claim C4). -/

/-- Source-side failure kinds of the cache core. -/
inductive SourceErr where
  | invalidSourceQuery
  | tileSourceError
  deriving DecidableEq

/-- Native grid data a `TiledSource` validates queries against: the
grid's SRS and its tile pixel size. -/
structure TiledGridM where
  srs : Nat
  tileSize : Size
  deriving DecidableEq

/-- Modelled from the spec: `TiledSource.get_map`.  The query's pixel
size must equal the grid's tile size and the query SRS must equal the
grid's SRS; any mismatch signals `InvalidSourceQuery` before any
upstream tile request is made.  On a match, the single tile covering the
query bbox is requested from the tile client (appended to
`client.requested_tiles`); a bbox that does not address a grid tile also
signals `InvalidSourceQuery`.  The function returns the client's request
list together with the outcome. -/
def TiledSource.getMap (g : TiledGridM) (tileFor : BBoxQ → Option Coord)
    (requestedTiles : List Coord) (q : MapQuery) :
    List Coord × Except SourceErr Coord :=
  if q.size ≠ g.tileSize then (requestedTiles, .error .invalidSourceQuery)
  else if q.srs ≠ g.srs then (requestedTiles, .error .invalidSourceQuery)
  else
    match tileFor q.bbox with
    | some c => (requestedTiles ++ [c], .ok c)
    | none => (requestedTiles, .error .invalidSourceQuery)

/-- Modelled from the spec: tile addressing of the global geodetic grid,
used as the `tileFor` capability of a `TiledSource` over that grid: the
unique coordinate whose tile bbox equals the query bbox, searched over
the first `maxLevel` zoom levels. -/
def geodeticTileFor (maxLevel : Nat) (b : BBoxQ) : Option Coord :=
  ((List.range maxLevel).flatMap (fun l =>
      (List.range (gridWidthTiles l)).flatMap (fun x =>
        (List.range (gridHeightTiles l)).map (fun y => ((x, y, l) : Coord))))).find?
    (fun c => tileBBox c = b)

/-! Layer composition models (claims C5 and C6). -/

/-- Modelled from the spec: `ResolutionConditional` holds a low-detail
layer (used for coarse queries), a high-detail layer, a threshold
resolution and the reference SRS the threshold is expressed in. -/
structure ResolutionConditionalM (α : Type) where
  low : α
  high : α
  resolution : ℚ
  srs : Nat

/-- Width-wise and height-wise resolution of a bbox rendered at a pixel
size; the effective resolution is the finer (smaller) of the two. -/
def minResOf (b : BBoxQ) (size : Size) : ℚ :=
  min ((b.x1 - b.x0) / size.1) ((b.y1 - b.y0) / size.2)

/-- Modelled from the spec: the query's effective resolution as seen by
`ResolutionConditional`: the query bbox is reprojected into the
reference SRS first when the query SRS differs (`tf from to bbox` is the
SRS capability `transform_bbox`). -/
def effectiveRes (tf : Nat → Nat → BBoxQ → BBoxQ) (refSrs : Nat) (q : MapQuery) : ℚ :=
  let b := if q.srs ≠ refSrs then tf q.srs refSrs q.bbox else q.bbox
  minResOf b q.size

/-- Modelled from the spec: the routing decision of
`ResolutionConditional.get_map`: a query whose effective resolution is
coarser than the threshold goes to the low-detail layer, any other query
to the high-detail layer. -/
def ResolutionConditionalM.selectLayer {α : Type} (rc : ResolutionConditionalM α)
    (tf : Nat → Nat → BBoxQ → BBoxQ) (q : MapQuery) : α :=
  if effectiveRes tf rc.srs q > rc.resolution then rc.low else rc.high

/-- SRS class wildcard: any geographic or any projected SRS. -/
inductive SRSClassM where
  | geographic
  | projected
  deriving DecidableEq

/-- An SRS value as `SRSConditional` sees it: its normalized code and
its class (geographic or projected). -/
structure SRSM where
  code : Nat
  cls : SRSClassM
  deriving DecidableEq

/-- One element of an entry's SRS set: a concrete SRS or a class
wildcard such as `SRSConditional.PROJECTED`. -/
inductive SRSRef where
  | srs (s : SRSM)
  | anyClass (c : SRSClassM)
  deriving DecidableEq

/-- Whether an entry's SRS set contains the query SRS exactly (equality
is by code). -/
def entryHasExact {α : Type} (q : SRSM) (e : α × List SRSRef) : Bool :=
  e.2.any (fun r => match r with | .srs s => s.code == q.code | .anyClass _ => false)

/-- Whether an entry's SRS set contains the given class wildcard. -/
def entryHasClass {α : Type} (c : SRSClassM) (e : α × List SRSRef) : Bool :=
  e.2.any (fun r => match r with | .srs _ => false | .anyClass c2 => c2 == c)

/-- Whether an entry is geographic-capable: its SRS set names a
geographic SRS or the geographic class wildcard. -/
def entryGeographicCapable {α : Type} (e : α × List SRSRef) : Bool :=
  e.2.any (fun r => match r with
    | .srs s => s.cls == SRSClassM.geographic
    | .anyClass c => c == SRSClassM.geographic)

/-- Modelled from the spec: `SRSConditional._select_layer` over the
ordered entry list: the first entry with an exact SRS match wins;
failing that, the first entry whose class wildcard matches the query
SRS's nature; failing that, the first geographic-capable entry. -/
def srsSelectLayer {α : Type} (entries : List (α × List SRSRef)) (q : SRSM) : Option α :=
  match entries.find? (entryHasExact q) with
  | some e => some e.1
  | none =>
    match entries.find? (entryHasClass q.cls) with
    | some e => some e.1
    | none => (entries.find? entryGeographicCapable).map (fun e => e.1)

/-- The entry list of the unit test `TestSRSConditionalLayers`: layer 0
for exactly EPSG:4326, layer 1 for exactly EPSG:900913 and EPSG:31467,
layer 2 for the projected class wildcard. -/
def testSRSEntries : List (Nat × List SRSRef) :=
  [ (0, [.srs ⟨4326, .geographic⟩]),
    (1, [.srs ⟨900913, .projected⟩, .srs ⟨31467, .projected⟩]),
    (2, [.anyClass .projected]) ]

/-! Configuration loader, embedded from `src/mapproxy/core/conf_loader.py`. -/

/-- `ConfigurationError` causes raised by `ConfigurationBase.__init__`:
an unexpected keyword or a missing required key. -/
inductive ConfErr where
  | unexpectedKey (k : String)
  | missingKey (k : String)
  deriving DecidableEq

/-- The class-level key sets of a `ConfigurationBase` subclass:
`optional_keys`, `required_keys` and `defaults`. -/
structure ConfKeys where
  optional : List String := []
  required : List String := []
  defaults : List (String × String) := []

/-- The `expected_keys` set of `ConfigurationBase.__init__`: the union
of the optional keys, required keys and default keys. -/
def expectedKeys (s : ConfKeys) : List String :=
  s.optional ++ s.required ++ s.defaults.map (fun d => d.1)

/-- Dictionary lookup `self.conf[k]` / `k in self.conf` on an
association list. -/
def confLookup : List (String × String) → String → Option String
  | [], _ => none
  | e :: rest, k => if e.1 = k then some e.2 else confLookup rest k

/-- Dictionary assignment `self.conf[k] = v` on an association list. -/
def confInsert : List (String × String) → String → String → List (String × String)
  | [], k, v => [(k, v)]
  | e :: rest, k, v => if e.1 = k then (k, v) :: rest else e :: confInsert rest k v

/-- The first loop of `ConfigurationBase.__init__`: each supplied
keyword is checked against `expected_keys` (raising on the first
unexpected one) and copied into `self.conf`. -/
def processKw (expected : List String) (conf : List (String × String)) :
    List (String × String) → Except ConfErr (List (String × String))
  | [] => .ok conf
  | (k, v) :: rest =>
    if k ∈ expected then processKw expected (confInsert conf k v) rest
    else .error (.unexpectedKey k)

/-- The final loop of `ConfigurationBase.__init__`: every default whose
key is not yet in `self.conf` is added with its default value. -/
def applyDefaults (conf : List (String × String)) (ds : List (String × String)) :
    List (String × String) :=
  ds.foldl (fun c d => if (confLookup c d.1).isSome then c else c ++ [d]) conf

/-- `ConfigurationBase.__init__`: copy the expected keywords into
`self.conf` (raising `ConfigurationError` on an unexpected key), raise
`ConfigurationError` on the first required key that was not supplied,
then fill in the defaults. -/
def configurationBaseInit (s : ConfKeys) (kw : List (String × String)) :
    Except ConfErr (List (String × String)) :=
  match processKw (expectedKeys s) [] kw with
  | .error e => .error e
  | .ok conf =>
    match s.required.find? (fun k => (confLookup conf k).isNone) with
    | some k => .error (.missingKey k)
    | none => .ok (applyDefaults conf s.defaults)

/-- `GridConfiguration.tile_grid`'s resolution handling: a supplied
resolution list is sorted in place with `res.sort(reverse=True)`
(descending, stable) and handed to the `TileGrid` constructor, which
(modelled from the spec, `grid.py` is not in the source tree) stores it
as the grid's per-level resolution sequence. -/
def tileGridRes (res : List ℚ) : List ℚ :=
  res.mergeSort (fun a b => decide (b ≤ a))

/-- One direct subclass of `SourceConfiguration`: its name, its
`source_type` tuple and its `ConfigurationBase` key sets. -/
structure SubclassDecl where
  name : String
  sourceType : List String
  keys : ConfKeys

/-- `WMSSourceConfiguration`: `source_type = ('wms',)`. -/
def wmsSourceConfigurationDecl : SubclassDecl :=
  { name := "WMSSourceConfiguration"
    sourceType := ["wms"]
    keys := { optional := ["type", "supported_srs", "request_format", "image",
                           "use_direct_from_level", "wms_opts", "http"]
              required := ["req"] } }

/-- `TileSourceConfiguration`: `source_type = ('tiles',)` with defaults
for `origin` and `grid`. -/
def tileSourceConfigurationDecl : SubclassDecl :=
  { name := "TileSourceConfiguration"
    sourceType := ["tiles"]
    keys := { optional := ["type", "grid", "request_format", "origin"]
              required := ["url"]
              defaults := [("origin", "sw"), ("grid", "GLOBAL_MERCATOR")] } }

/-- `DebugSourceConfiguration`: `source_type = ('debug',)`. -/
def debugSourceConfigurationDecl : SubclassDecl :=
  { name := "DebugSourceConfiguration"
    sourceType := ["debug"]
    keys := { required := ["type"] } }

/-- `SourceConfiguration.__subclasses__()` in definition order. -/
def sourceConfigurationSubclasses : List SubclassDecl :=
  [wmsSourceConfigurationDecl, tileSourceConfigurationDecl, debugSourceConfigurationDecl]

/-- Failure kinds of `SourceConfiguration.load`: a `KeyError` from
`kw['type']`, the bare `ValueError` for an undeclared type, or a
`ConfigurationError` raised while constructing the chosen subclass. -/
inductive LoadErr where
  | keyError
  | valueError
  | configurationError (e : ConfErr)
  deriving DecidableEq

/-- `SourceConfiguration.load`: read `kw['type']`, scan the direct
subclasses for the first whose `source_type` contains it and construct
that subclass with the keywords; raise a bare `ValueError` when no
subclass declares the type.  The result records which subclass was
instantiated together with its `conf` dictionary. -/
def sourceConfigurationLoad (kw : List (String × String)) :
    Except LoadErr (String × List (String × String)) :=
  match confLookup kw "type" with
  | none => .error .keyError
  | some t =>
    match sourceConfigurationSubclasses.find? (fun d => decide (t ∈ d.sourceType)) with
    | none => .error .valueError
    | some d =>
      match configurationBaseInit d.keys kw with
      | .ok conf => .ok (d.name, conf)
      | .error e => .error (.configurationError e)

/-! Helper lemmas. -/

/-- A requester step against a cache that already holds both tiles of
the meta-tile only loads from the cache: no fetch, no store. -/
theorem lockingStep_saturated (st : ManagerState) (h0 : ((0, 0, 1) : Coord) ∈ st.storedSet)
    (h1 : ((1, 0, 1) : Coord) ∈ st.storedSet) :
    lockingStep st = { st with loadCalls := st.loadCalls ++ [(0, 0, 1), (1, 0, 1)] } := by
  norm_num [lockingStep, createTiles, dedupFirstSeen, metaAnchor, handleMetaTile, metaTileAt,
    gridWidthTiles, gridHeightTiles, tileWidthDeg, tileHeightDeg, resolutionOfLevel,
    List.range_succ, h0, h1]

/-- The first requester against the cold cache fetches the meta-tile
once and stores both member tiles. -/
theorem lockingRun_one :
    lockingRun 1 =
      { storedSet := [(0, 0, 1), (1, 0, 1)], storeCalls := [(0, 0, 1), (1, 0, 1)],
        loadCalls := [], requested := [(⟨-180, -90, 180, 90⟩, (512, 256), 4326)] } := by
  norm_num [lockingRun, lockingStep, createTiles, dedupFirstSeen, handleMetaTile, metaTileAt,
    metaAnchor, gridWidthTiles, gridHeightTiles, tileWidthDeg, tileHeightDeg, resolutionOfLevel,
    initManagerState, List.range_succ]

/-- After any positive number of lock-serialized requesters, the source
request list, the store-call list and the cached set are those produced
by the first requester alone. -/
theorem lockingRun_state (n : Nat) (h : 1 ≤ n) :
    (lockingRun n).requested = [(⟨-180, -90, 180, 90⟩, (512, 256), 4326)] ∧
    (lockingRun n).storeCalls = [(0, 0, 1), (1, 0, 1)] ∧
    (lockingRun n).storedSet = [(0, 0, 1), (1, 0, 1)] := by
  induction n with
  | zero => omega
  | succ m ih =>
    rcases Nat.eq_or_lt_of_le h with h1 | h1
    · rw [← h1, lockingRun_one]
      exact ⟨rfl, rfl, rfl⟩
    · have hm : 1 ≤ m := by omega
      obtain ⟨hr, hsc, hss⟩ := ih hm
      have hstep : lockingRun (m + 1) = lockingStep (lockingRun m) := by
        simp [lockingRun, Function.iterate_succ_apply']
      rw [hstep, lockingStep_saturated (lockingRun m) (by rw [hss]; simp) (by rw [hss]; simp)]
      exact ⟨hr, hsc, hss⟩

/-- Looking a path up after an insert finds the inserted node at that
path and is unchanged elsewhere. -/
theorem fsLookup_fsInsert (fs : Fs) (p p' : PathM) (n : FsNodeM) :
    fsLookup (fsInsert fs p n) p' = if p = p' then some n else fsLookup fs p' := by
  induction fs with
  | nil => simp [fsInsert, fsLookup]
  | cons e rest ih =>
    by_cases he : e.1 = p
    · by_cases h : p = p' <;> simp [fsInsert, fsLookup, he, h]
    · by_cases h : e.1 = p'
      · have h1 : ¬p = p' := fun hc => he (by rw [hc, h])
        have h2 : ¬p' = p := fun hc => he (h.trans hc)
        simp [fsInsert, fsLookup, he, h, h1, h2]
      · simp [fsInsert, fsLookup, he, h, ih]

/-! Claim theorems. -/

/-- C1: when `n ≥ 1` concurrent requesters each ask the `TileManager`
for tiles `(0,0,1)` and `(1,0,1)` of one cache-cold meta-tile (the
per-meta-tile lock serializes them, so a concurrent run is some
sequential order of the `n` identical requests), exactly one upstream
`Source.get_map` call is made — so the source's request count equals the
one distinct cache-cold meta-tile, not the number of requesters — and
each of the two tiles is stored exactly once. -/
theorem C1_concurrent_requesters_single_fetch (n : Nat) (h : 1 ≤ n) :
    (lockingRun n).requested = [(⟨-180, -90, 180, 90⟩, (512, 256), 4326)] ∧
    (lockingRun n).requested.length = 1 ∧
    (lockingRun n).storeCalls.count ((0, 0, 1) : Coord) = 1 ∧
    (lockingRun n).storeCalls.count ((1, 0, 1) : Coord) = 1 ∧
    (lockingRun n).storedSet = [(0, 0, 1), (1, 0, 1)] := by
  obtain ⟨hr, hsc, hss⟩ := lockingRun_state n h
  refine ⟨hr, by rw [hr]; rfl, ?_, ?_, hss⟩ <;> rw [hsc] <;> decide

/-- C1 witness: the three-requester instance of the concurrency claim. -/
theorem C1_witness :
    (1 ≤ 3) ∧
    (lockingRun 3).requested.length = 1 ∧
    (lockingRun 3).storeCalls.count ((0, 0, 1) : Coord) = 1 ∧
    (lockingRun 3).storeCalls.count ((1, 0, 1) : Coord) = 1 :=
  have h := C1_concurrent_requesters_single_fetch 3 (by norm_num)
  ⟨by norm_num, h.2.1, h.2.2.1, h.2.2.2.1⟩

/-- C2: for a 2x2-meta `TileManager` over the global geodetic grid with
`meta_buffer` 0 and a WMS source, requesting tiles `(0,0,2)` and
`(2,0,2)` (two distinct meta-tiles) triggers exactly two upstream
`Source.get_map` calls, each 512x512 pixels with the bbox of its
meta-tile (`(-180,-90,0,90)` and `(0,-90,180,90)`), and afterwards all 8
member tiles of the two meta-tiles are stored. -/
theorem C2_two_meta_tiles_two_fetches :
    (createTiles (2, 2) 0 [(0, 0, 2), (2, 0, 2)] initManagerState).requested =
      [(⟨-180, -90, 0, 90⟩, (512, 512), 4326), (⟨0, -90, 180, 90⟩, (512, 512), 4326)] ∧
    (createTiles (2, 2) 0 [(0, 0, 2), (2, 0, 2)] initManagerState).requested.length = 2 ∧
    (createTiles (2, 2) 0 [(0, 0, 2), (2, 0, 2)] initManagerState).storedSet =
      [(0, 0, 2), (0, 1, 2), (1, 0, 2), (1, 1, 2),
       (2, 0, 2), (2, 1, 2), (3, 0, 2), (3, 1, 2)] := by
  refine ⟨?_, ?_, ?_⟩ <;>
    norm_num [createTiles, dedupFirstSeen, handleMetaTile, metaTileAt, metaAnchor,
      gridWidthTiles, gridHeightTiles, tileWidthDeg, tileHeightDeg, resolutionOfLevel,
      initManagerState, List.range_succ]

/-- C3 counterexample: the claim as stated is false for a genuinely
non-opaque alpha channel.  Storing a solid ff0105 image whose alpha is
128 yields the canonical file `ff010580.png` — named by the full RGBA
hex, alpha value included — whose name does not end in `ff0105ff.png`. -/
theorem C3_counterexample :
    pathName (realpath c3NonOpaqueFs (c3Cache.tileLocation (0, 0, 0))) = "ff010580.png" ∧
    strEndsWith (pathName (realpath c3NonOpaqueFs (c3Cache.tileLocation (0, 0, 0))))
      "ff0105ff.png" = false := by
  decide

/-- C3 (amended): with single-color deduplication enabled, storing two
tiles at distinct coordinates whose images are both solid opaque RGB
ff0105 yields two different tile paths referencing the same canonical
file, whose name ends in `ff0105.png`; storing the same solid color as
an image with an alpha channel (the test's fully opaque RGBA) yields a
canonical filename ending in the RGBA hex `ff0105ff.png`, a canonical
file distinct from the RGB one. -/
theorem C3_single_color_dedup_amended :
    c3Cache.tileLocation (0, 0, 0) ≠ c3Cache.tileLocation (0, 0, 1) ∧
    realpath c3Fs2 (c3Cache.tileLocation (0, 0, 0)) =
      realpath c3Fs2 (c3Cache.tileLocation (0, 0, 1)) ∧
    strEndsWith (pathName (realpath c3Fs2 (c3Cache.tileLocation (0, 0, 0)))) "ff0105.png" = true ∧
    strEndsWith (pathName (realpath c3AlphaFs (c3Cache.tileLocation (0, 0, 0))))
      "ff0105ff.png" = true ∧
    realpath c3AlphaFs (c3Cache.tileLocation (0, 0, 0)) ≠
      realpath c3Fs2 (c3Cache.tileLocation (0, 0, 0)) := by
  decide

/-- C4: for every query whose pixel size differs from the grid's tile
size or whose SRS differs from the grid's SRS, `TiledSource.get_map`
signals `InvalidSourceQuery` and makes no upstream tile request (the
client's request list is returned unchanged). -/
theorem C4_tiled_source_strict_match (g : TiledGridM) (tileFor : BBoxQ → Option Coord)
    (requestedTiles : List Coord) (q : MapQuery)
    (h : q.size ≠ g.tileSize ∨ q.srs ≠ g.srs) :
    TiledSource.getMap g tileFor requestedTiles q =
      (requestedTiles, .error .invalidSourceQuery) := by
  rcases h with h | h
  · simp [TiledSource.getMap, h]
  · by_cases hs : q.size = g.tileSize <;> simp [TiledSource.getMap, hs, h]

/-- C4 witness: the unit test's wrong-size query (512x256 against the
256x256 global geodetic grid) is rejected without a tile request. -/
theorem C4_witness :
    TiledSource.getMap ⟨4326, (256, 256)⟩ (geodeticTileFor 5) []
      ⟨⟨-180, -90, 0, 90⟩, (512, 256), 4326⟩ = ([], .error .invalidSourceQuery) :=
  C4_tiled_source_strict_match ⟨4326, (256, 256)⟩ (geodeticTileFor 5) []
    ⟨⟨-180, -90, 0, 90⟩, (512, 256), 4326⟩ (by decide)

/-- C7: a tile whose `stored` flag is set is not written at all by
`FileCache.store` — the filesystem is returned exactly as it was, so an
absent location stays absent; and for a not-yet-stored tile (of the
default, non-deduplicating cache), `store` persists the image bytes,
after which the tile is marked stored, `is_cached` holds and `load`
returns the exact original bytes. -/
theorem C7_store_idempotent_roundtrip (fc : FileCacheM) (fs : Fs) (t : TileM) :
    (t.stored = true → fc.store fs t = (fs, t)) ∧
    (∀ c img, fc.linkSingleColor = false → t.stored = false →
      t.coord = some c → t.image = some img →
      ((fc.store fs t).2.stored = true ∧
       fc.isCached (fc.store fs t).1 (fc.store fs t).2 = true ∧
       fc.load (fc.store fs t).1 ⟨some c, none, false⟩ =
         (⟨some c, some ⟨img.bytes, none⟩, false⟩, true))) := by
  constructor
  · intro h
    simp [FileCacheM.store, h]
  · intro c img hlink hstored hcoord himg
    obtain ⟨bts, sol⟩ := img
    have hstore : fc.store fs t =
        (fsInsert fs (fc.tileLocation c) (.file bts), { t with stored := true }) := by
      cases sol <;> simp [FileCacheM.store, hstored, hcoord, himg, hlink]
    rw [hstore]
    refine ⟨rfl, ?_, ?_⟩
    · simp [FileCacheM.isCached, hcoord, fsLookup_fsInsert]
    · simp [FileCacheM.load, readFile, realpath, fsLookup_fsInsert]

/-- C7 witness: storing an already-stored tile writes nothing, and the
store/is_cached/load round trip holds for the test's tile with bytes
`foo`. -/
theorem C7_witness :
    FileCacheM.store ⟨"png", false⟩ [] ⟨some (0, 0, 0), some ⟨"foo", none⟩, true⟩ =
      ([], ⟨some (0, 0, 0), some ⟨"foo", none⟩, true⟩) ∧
    FileCacheM.load ⟨"png", false⟩
      (FileCacheM.store ⟨"png", false⟩ [] ⟨some (0, 0, 0), some ⟨"foo", none⟩, false⟩).1
      ⟨some (0, 0, 0), none, false⟩ = (⟨some (0, 0, 0), some ⟨"foo", none⟩, false⟩, true) :=
  ⟨(C7_store_idempotent_roundtrip ⟨"png", false⟩ []
      ⟨some (0, 0, 0), some ⟨"foo", none⟩, true⟩).1 rfl,
   ((C7_store_idempotent_roundtrip ⟨"png", false⟩ []
      ⟨some (0, 0, 0), some ⟨"foo", none⟩, false⟩).2 (0, 0, 0) ⟨"foo", none⟩
      rfl rfl rfl rfl).2.2⟩

/-- C5: `ResolutionConditional` computes the query's effective
resolution on the bbox reprojected into the reference SRS whenever the
query SRS differs, and routes to the high-detail layer exactly when that
effective resolution is finer than or equal to the threshold (tie to
high-detail), otherwise to the low-detail layer. -/
theorem C5_resolution_conditional_routing {α : Type} (rc : ResolutionConditionalM α)
    (tf : Nat → Nat → BBoxQ → BBoxQ) (q : MapQuery) :
    rc.selectLayer tf q =
      (if minResOf (if q.srs = rc.srs then q.bbox else tf q.srs rc.srs q.bbox) q.size ≤
          rc.resolution
       then rc.high else rc.low) := by
  have hb : effectiveRes tf rc.srs q =
      minResOf (if q.srs = rc.srs then q.bbox else tf q.srs rc.srs q.bbox) q.size := by
    unfold effectiveRes
    by_cases hsrs : q.srs = rc.srs <;> simp [hsrs]
  unfold ResolutionConditionalM.selectLayer
  rw [hb]
  rcases le_or_lt
      (minResOf (if q.srs = rc.srs then q.bbox else tf q.srs rc.srs q.bbox) q.size)
      rc.resolution with h | h
  · rw [if_neg (not_lt.2 h), if_pos h]
  · rw [if_pos h, if_neg (not_le.2 h)]

/-- C6: `SRSConditional._select_layer` picks the first entry (in list
order) whose SRS set contains the query SRS exactly; failing that, the
first entry whose class wildcard matches the query SRS's nature; failing
that, the first geographic-capable entry — together with the unit test's
six selections over its three-entry configuration. -/
theorem C6_srs_conditional_selection {α : Type} (entries : List (α × List SRSRef)) (q : SRSM) :
    (∀ e, entries.find? (entryHasExact q) = some e → srsSelectLayer entries q = some e.1) ∧
    (entries.find? (entryHasExact q) = none →
      ∀ e, entries.find? (entryHasClass q.cls) = some e → srsSelectLayer entries q = some e.1) ∧
    (entries.find? (entryHasExact q) = none → entries.find? (entryHasClass q.cls) = none →
      srsSelectLayer entries q = (entries.find? entryGeographicCapable).map (fun e => e.1)) ∧
    (srsSelectLayer testSRSEntries ⟨4326, .geographic⟩ = some 0 ∧
     srsSelectLayer testSRSEntries ⟨900913, .projected⟩ = some 1 ∧
     srsSelectLayer testSRSEntries ⟨31467, .projected⟩ = some 1 ∧
     srsSelectLayer testSRSEntries ⟨31466, .projected⟩ = some 2 ∧
     srsSelectLayer testSRSEntries ⟨32633, .projected⟩ = some 2 ∧
     srsSelectLayer testSRSEntries ⟨4258, .geographic⟩ = some 0) := by
  refine ⟨?_, ?_, ?_, by decide⟩
  · intro e he
    simp [srsSelectLayer, he]
  · intro h e he
    simp [srsSelectLayer, h, he]
  · intro h1 h2
    simp [srsSelectLayer, h1, h2]

/-- C6 witness: a projected SRS (EPSG:31466) not listed exactly is
routed to the projected-class entry (layer 2) of the test
configuration. -/
theorem C6_witness : srsSelectLayer testSRSEntries ⟨31466, .projected⟩ = some 2 :=
  (C6_srs_conditional_selection testSRSEntries ⟨31466, .projected⟩).2.1 (by decide)
    (2, [.anyClass .projected]) (by decide)

/-- C8 counterexample: the claim as stated fails on a resolution list
with a repeated entry.  `GridConfiguration.tile_grid` only sorts the
supplied list descending (`res.sort(reverse=True)`), so `[10, 10, 5]` is
handed to the grid unchanged and the resulting resolution sequence is
not strictly decreasing. -/
theorem C8_counterexample :
    tileGridRes [10, 10, 5] = [10, 10, 5] ∧
    ¬ List.Chain' (fun a b : ℚ => a > b) (tileGridRes [10, 10, 5]) := by
  have h : tileGridRes [10, 10, 5] = ([10, 10, 5] : List ℚ) := by
    norm_num [tileGridRes, List.mergeSort, List.merge]
  refine ⟨h, ?_⟩
  rw [h]
  norm_num [List.chain'_cons]

/-- C8 (amended): the resolution sequence of a grid built by
`GridConfiguration.tile_grid` from a supplied resolution list is sorted
non-increasing, and it is strictly decreasing whenever the supplied
resolutions are pairwise distinct. -/
theorem C8_resolutions_sorted_amended (res : List ℚ) :
    List.Sorted (fun a b : ℚ => a ≥ b) (tileGridRes res) ∧
    (res.Nodup → List.Sorted (fun a b : ℚ => a > b) (tileGridRes res)) := by
  have hsorted : List.Pairwise (fun a b : ℚ => decide (b ≤ a) = true) (tileGridRes res) := by
    unfold tileGridRes
    exact List.sorted_mergeSort
      (fun a b c hab hbc => by
        simp only [decide_eq_true_eq] at *
        exact le_trans hbc hab)
      (fun a b => by
        simp only [Bool.or_eq_true, decide_eq_true_eq]
        exact le_total b a)
      res
  have hge : List.Sorted (fun a b : ℚ => a ≥ b) (tileGridRes res) :=
    hsorted.imp (fun h => by simpa using h)
  refine ⟨hge, fun hnd => ?_⟩
  have hperm : (tileGridRes res).Perm res := List.mergeSort_perm res _
  have hnd2 : (tileGridRes res).Nodup := hperm.symm.nodup hnd
  exact (hge.and hnd2).imp (fun h => lt_of_le_of_ne h.1 (Ne.symm h.2))

/-- C8 witness: a duplicate-free resolution list yields a strictly
decreasing grid resolution sequence. -/
theorem C8_witness :
    ([10, 5, 1] : List ℚ).Nodup ∧
    List.Sorted (fun a b : ℚ => a > b) (tileGridRes [10, 5, 1]) :=
  ⟨by decide, (C8_resolutions_sorted_amended [10, 5, 1]).2 (by decide)⟩

/-- Looking a key up after a dictionary assignment finds the assigned
value at that key and is unchanged elsewhere. -/
theorem confLookup_confInsert (conf : List (String × String)) (k k' v : String) :
    confLookup (confInsert conf k v) k' = if k = k' then some v else confLookup conf k' := by
  induction conf with
  | nil => simp [confInsert, confLookup]
  | cons e rest ih =>
    by_cases he : e.1 = k
    · by_cases h : k = k' <;> simp [confInsert, confLookup, he, h]
    · by_cases h : e.1 = k'
      · have h1 : ¬k = k' := fun hc => he (by rw [hc, h])
        have h2 : ¬k' = k := fun hc => he (h.trans hc)
        simp [confInsert, confLookup, he, h, h1, h2]
      · simp [confInsert, confLookup, he, h, ih]

/-- A keyword whose key is not expected makes the keyword-copying loop
fail with an unexpected-key error, whatever `conf` it starts from. -/
theorem processKw_error_of_unexpected (expected : List String) (kw : List (String × String))
    (h : ∃ p ∈ kw, p.1 ∉ expected) :
    ∀ conf, ∃ k, processKw expected conf kw = .error (.unexpectedKey k) := by
  revert h
  induction kw with
  | nil => intro h; simp at h
  | cons p rest ih =>
    intro h conf
    obtain ⟨pk, pv⟩ := p
    by_cases hk : pk ∈ expected
    · have hrest : ∃ q ∈ rest, q.1 ∉ expected := by
        obtain ⟨q, hq, hqn⟩ := h
        rcases List.mem_cons.1 hq with rfl | hq2
        · exact absurd hk (by simpa using hqn)
        · exact ⟨q, hq2, hqn⟩
      obtain ⟨k, hk2⟩ := ih hrest (confInsert conf pk pv)
      exact ⟨k, by simpa [processKw, hk] using hk2⟩
    · exact ⟨pk, by simp [processKw, hk]⟩

/-- The keyword-copying loop leaves keys that do not occur among the
keywords untouched. -/
theorem processKw_lookup_not_mem (expected : List String) (kw : List (String × String))
    (x : String) :
    ∀ conf conf', processKw expected conf kw = .ok conf' →
      x ∉ kw.map (fun p => p.1) → confLookup conf' x = confLookup conf x := by
  induction kw with
  | nil =>
    intro conf conf' h _
    simp [processKw] at h
    rw [h]
  | cons p rest ih =>
    intro conf conf' h hx
    obtain ⟨pk, pv⟩ := p
    by_cases hk : pk ∈ expected
    · simp [processKw, hk] at h
      simp only [List.map_cons, List.mem_cons, not_or] at hx
      rw [ih _ _ h hx.2, confLookup_confInsert, if_neg (fun hc => hx.1 hc.symm)]
    · simp [processKw, hk] at h

/-- With pairwise distinct keyword keys, the keyword-copying loop gives
every supplied key its supplied value. -/
theorem processKw_lookup_mem (expected : List String) (kw : List (String × String))
    (x v : String) :
    ∀ conf conf', processKw expected conf kw = .ok conf' →
      (kw.map (fun p => p.1)).Nodup → (x, v) ∈ kw → confLookup conf' x = some v := by
  induction kw with
  | nil => intro conf conf' _ _ hmem; simp at hmem
  | cons p rest ih =>
    intro conf conf' h hnd hmem
    obtain ⟨pk, pv⟩ := p
    by_cases hk : pk ∈ expected
    · simp [processKw, hk] at h
      simp only [List.map_cons, List.nodup_cons] at hnd
      rcases List.mem_cons.1 hmem with heq | hmem2
      · injection heq with h1 h2
        subst h1; subst h2
        rw [processKw_lookup_not_mem expected rest x _ _ h hnd.1, confLookup_confInsert,
          if_pos rfl]
      · exact ih _ _ h hnd.2 hmem2
    · simp [processKw, hk] at h

/-- A key present in the left part of an appended dictionary keeps its
value. -/
theorem confLookup_append_left (l1 l2 : List (String × String)) (x v : String)
    (h : confLookup l1 x = some v) : confLookup (l1 ++ l2) x = some v := by
  induction l1 with
  | nil => simp [confLookup] at h
  | cons e rest ih =>
    by_cases he : e.1 = x
    · simpa [confLookup, he] using h
    · simp [confLookup, he] at h ⊢
      exact ih h

/-- A key absent from the left part of an appended dictionary is looked
up in the right part. -/
theorem confLookup_append_right (l1 l2 : List (String × String)) (x : String)
    (h : confLookup l1 x = none) : confLookup (l1 ++ l2) x = confLookup l2 x := by
  induction l1 with
  | nil => simp
  | cons e rest ih =>
    by_cases he : e.1 = x
    · simp [confLookup, he] at h
    · simp [confLookup, he] at h ⊢
      exact ih h

/-- One step of the default-filling fold. -/
theorem applyDefaults_cons (conf : List (String × String)) (d : String × String)
    (ds : List (String × String)) :
    applyDefaults conf (d :: ds) =
      applyDefaults (if (confLookup conf d.1).isSome then conf else conf ++ [d]) ds := rfl

/-- Default filling never changes a key that already has a value. -/
theorem applyDefaults_lookup_some (ds : List (String × String)) (x v : String) :
    ∀ conf, confLookup conf x = some v →
      confLookup (applyDefaults conf ds) x = some v := by
  induction ds with
  | nil => intro conf h; simpa [applyDefaults] using h
  | cons d rest ih =>
    intro conf h
    rw [applyDefaults_cons]
    refine ih _ ?_
    by_cases hc : (confLookup conf d.1).isSome
    · simpa [hc] using h
    · rw [if_neg hc]
      exact confLookup_append_left _ _ _ _ h

/-- Default filling gives an absent key its default value, provided the
default keys are pairwise distinct. -/
theorem applyDefaults_lookup_default (ds : List (String × String)) (x v : String) :
    ∀ conf, confLookup conf x = none → (ds.map (fun p => p.1)).Nodup → (x, v) ∈ ds →
      confLookup (applyDefaults conf ds) x = some v := by
  induction ds with
  | nil => intro conf _ _ hmem; simp at hmem
  | cons d rest ih =>
    intro conf hnone hnd hmem
    obtain ⟨dk, dv⟩ := d
    simp only [List.map_cons, List.nodup_cons] at hnd
    rw [applyDefaults_cons]
    rcases List.mem_cons.1 hmem with heq | hmem2
    · injection heq with h1 h2
      subst h1; subst h2
      rw [if_neg (by simp [hnone])]
      refine applyDefaults_lookup_some rest x v _ ?_
      rw [confLookup_append_right _ _ _ hnone]
      simp [confLookup]
    · have hxk : x ∈ rest.map (fun p => p.1) :=
        List.mem_map.2 ⟨(x, v), hmem2, rfl⟩
      have hne : ¬dk = x := fun hc => hnd.1 (hc ▸ hxk)
      by_cases hc : (confLookup conf dk).isSome
      · rw [if_pos hc]
        exact ih conf hnone hnd.2 hmem2
      · rw [if_neg hc]
        have hstill : confLookup (conf ++ [(dk, dv)]) x = none := by
          rw [confLookup_append_right _ _ _ hnone]
          simp [confLookup, hne]
        exact ih _ hstill hnd.2 hmem2

/-- C9: `ConfigurationBase.__init__` raises `ConfigurationError` when
any supplied keyword is outside the union of `optional_keys`,
`required_keys` and `defaults`, and when any required key is absent; on
success, every supplied key keeps its supplied value and every default
key not supplied appears with its default value. -/
theorem C9_configuration_base_init (s : ConfKeys) (kw : List (String × String))
    (hkw : (kw.map (fun p => p.1)).Nodup) (hds : (s.defaults.map (fun p => p.1)).Nodup) :
    ((∃ p ∈ kw, p.1 ∉ expectedKeys s) → ∃ e, configurationBaseInit s kw = .error e) ∧
    ((∃ k ∈ s.required, k ∉ kw.map (fun p => p.1)) →
      ∃ e, configurationBaseInit s kw = .error e) ∧
    (∀ conf, configurationBaseInit s kw = .ok conf →
      (∀ p ∈ kw, confLookup conf p.1 = some p.2) ∧
      (∀ p ∈ s.defaults, p.1 ∉ kw.map (fun q => q.1) → confLookup conf p.1 = some p.2)) := by
  refine ⟨?_, ?_, ?_⟩
  · intro hex
    obtain ⟨k, hk⟩ := processKw_error_of_unexpected (expectedKeys s) kw hex []
    exact ⟨.unexpectedKey k, by simp [configurationBaseInit, hk]⟩
  · rintro ⟨k, hkreq, hknot⟩
    cases hp : processKw (expectedKeys s) [] kw with
    | error e => exact ⟨e, by simp [configurationBaseInit, hp]⟩
    | ok conf0 =>
      have hnone : confLookup conf0 k = none := by
        rw [processKw_lookup_not_mem _ _ _ _ _ hp hknot]
        rfl
      have hfind : (s.required.find? (fun k => (confLookup conf0 k).isNone)).isSome :=
        List.find?_isSome.2 ⟨k, hkreq, by simp [hnone]⟩
      obtain ⟨k', hk'⟩ := Option.isSome_iff_exists.1 hfind
      exact ⟨.missingKey k', by simp [configurationBaseInit, hp, hk']⟩
  · intro conf hok
    cases hp : processKw (expectedKeys s) [] kw with
    | error e => simp [configurationBaseInit, hp] at hok
    | ok conf0 =>
      cases hf : s.required.find? (fun k => (confLookup conf0 k).isNone) with
      | some k => simp [configurationBaseInit, hp, hf] at hok
      | none =>
        have hconf : conf = applyDefaults conf0 s.defaults := by
          simp [configurationBaseInit, hp, hf] at hok
          exact hok.symm
        subst hconf
        constructor
        · rintro ⟨pk, pv⟩ hpmem
          exact applyDefaults_lookup_some s.defaults pk pv conf0
            (processKw_lookup_mem _ _ _ _ _ _ hp hkw hpmem)
        · rintro ⟨pk, pv⟩ hpd hpnot
          have h0 : confLookup conf0 pk = none := by
            rw [processKw_lookup_not_mem _ _ _ _ _ hp hpnot]
            rfl
          exact applyDefaults_lookup_default s.defaults pk pv conf0 h0 hds hpd

/-- C9 witness: constructing a `TileSourceConfiguration` with `url` and
`type` keywords succeeds, keeps the supplied `url` and fills the
`origin` default with `sw`. -/
theorem C9_witness :
    configurationBaseInit tileSourceConfigurationDecl.keys
        [("url", "http://localhost/tiles"), ("type", "tiles")] =
      .ok [("url", "http://localhost/tiles"), ("type", "tiles"),
           ("origin", "sw"), ("grid", "GLOBAL_MERCATOR")] ∧
    confLookup [("url", "http://localhost/tiles"), ("type", "tiles"),
      ("origin", "sw"), ("grid", "GLOBAL_MERCATOR")] "origin" = some "sw" ∧
    confLookup [("url", "http://localhost/tiles"), ("type", "tiles"),
      ("origin", "sw"), ("grid", "GLOBAL_MERCATOR")] "url" =
        some "http://localhost/tiles" := by
  have hok : configurationBaseInit tileSourceConfigurationDecl.keys
      [("url", "http://localhost/tiles"), ("type", "tiles")] =
      .ok [("url", "http://localhost/tiles"), ("type", "tiles"),
           ("origin", "sw"), ("grid", "GLOBAL_MERCATOR")] := by rfl
  have h := C9_configuration_base_init tileSourceConfigurationDecl.keys
    [("url", "http://localhost/tiles"), ("type", "tiles")] (by decide) (by decide)
  obtain ⟨hkwv, hdefv⟩ := h.2.2 _ hok
  exact ⟨hok, hdefv ("origin", "sw") (by decide) (by decide),
    hkwv ("url", "http://localhost/tiles") (by decide)⟩

/-- C10: `SourceConfiguration.load` dispatches on the `type` value: with
a type string no subclass declares it raises a bare `ValueError` (not a
`ConfigurationError`), and with a declared type string it constructs the
first subclass whose `source_type` tuple contains it, yielding that
subclass's instance exactly when its `ConfigurationBase` construction
succeeds. -/
theorem C10_source_configuration_dispatch (kw : List (String × String)) (t : String)
    (h : confLookup kw "type" = some t) :
    ((∀ d ∈ sourceConfigurationSubclasses, t ∉ d.sourceType) →
      sourceConfigurationLoad kw = .error .valueError) ∧
    (∀ d, sourceConfigurationSubclasses.find? (fun d => decide (t ∈ d.sourceType)) = some d →
      sourceConfigurationLoad kw =
        (match configurationBaseInit d.keys kw with
         | .ok conf => .ok (d.name, conf)
         | .error e => .error (.configurationError e))) := by
  constructor
  · intro hall
    have hfind : sourceConfigurationSubclasses.find?
        (fun d => decide (t ∈ d.sourceType)) = none := by
      apply List.find?_eq_none.2
      intro d hd
      simpa using hall d hd
    simp [sourceConfigurationLoad, h, hfind]
  · intro d hd
    simp [sourceConfigurationLoad, h, hd]

/-- C10 witness: an undeclared type string produces the bare
`ValueError`. -/
theorem C10_witness :
    sourceConfigurationLoad [("type", "bogus")] = .error .valueError :=
  (C10_source_configuration_dispatch [("type", "bogus")] "bogus" (by decide)).1 (by decide)

end MapProxy
